import Mathlib

/-!
Shallow embedding of `src/main.py` (class `ShellEmulator`): an interactive
shell emulator over a virtual filesystem indexed from an extracted archive.

Modelling conventions:
  * Python `dict` → `Dict` (association list with Python assignment semantics:
    assigning to an existing key replaces its value in place, otherwise the
    binding is appended; lookup returns the unique binding).
  * The extracted archive tree on disk (`temp_fs`) → `Disk`: the set of
    regular-file paths with their `readlines()` content, plus the set of
    directory paths.  `open`/`os.path.isfile`/`os.path.isdir`/`os.path.exists`
    become lookups in it.
  * `print(...)` → each handler returns, besides the new session state, the
    list of lines it printed.
  * `write_log` → appends a `LogEntry` to `Shell.log` (persisting the JSON
    file is external I/O, not part of the core state).
  * A Python `raise ValueError(msg)` inside a handler → `Except.error msg`;
    the `try/except` in `run_command` is the catch at the interpreter
    boundary (`runCaught`).
  * `os.chmod` mode bits are not tracked by `Disk` (the emulator never reads
    them back); `chmod` is modelled by its observable output and log entry.
  * `exit()` / `unittest` runs are external process effects; the handlers
    are modelled by what they print and log before those effects.
-/

/-- Models one element of `self.log`:
the Python dict `{"action": message, "cwd": self.cwd}` (main.py line 53). -/
structure LogEntry where
  action : String
  cwd : String
deriving Repr, DecidableEq

/-- Models the Python dict `self.fs : dict[str, list[str]]`. -/
abbrev Dict := List (String × List String)

/-- Python `d[k]` / `k in d` probe: first (unique) binding for `k`. -/
def dictGet : Dict → String → Option (List String)
  | [], _ => none
  | (k, v) :: rest, key => if k == key then some v else dictGet rest key

/-- Python `d.get(k, default)` (main.py line 114). -/
def dictGetD (d : Dict) (key : String) (dflt : List String) : List String :=
  (dictGet d key).getD dflt

/-- Python `d[k] = v`: replace the binding in place if the key is present,
otherwise append it (insertion order preserved). -/
def dictInsert : Dict → String → List String → Dict
  | [], key, val => [(key, val)]
  | (k, v) :: rest, key, val =>
    if k == key then (key, val) :: rest else (k, v) :: dictInsert rest key val

/-- The mutable session state of a `ShellEmulator` instance:
`self.cwd`, `self.fs`, `self.log` (main.py lines 13-15). -/
structure Shell where
  cwd : String
  fs : Dict
  log : List LogEntry
deriving Repr, DecidableEq

/-- The extracted archive tree on the real filesystem, rooted at `temp_fs`:
regular files with their `readlines()` line lists, and directories. -/
structure Disk where
  files : List (String × List String)
  dirs : List String
deriving Repr

/-- Python `open(p).readlines()` for a path `p` with `os.path.isfile(p)` true;
`none` when `p` is not a regular file. -/
def Disk.readLines (dk : Disk) (p : String) : Option (List String) :=
  match dk.files.find? (fun q => q.1 == p) with
  | some q => some q.2
  | none => none

/-- Python `os.path.isfile(p)` on the modelled disk. -/
def Disk.isFile (dk : Disk) (p : String) : Bool :=
  (dk.readLines p).isSome

/-- Python `os.path.exists(p)` on the modelled disk (main.py line 146):
a regular file or a directory. -/
def Disk.pathExists (dk : Disk) (p : String) : Bool :=
  dk.isFile p || dk.dirs.contains p

/-- Whether a path string begins with the POSIX separator (absolute path). -/
def startsWithSlash (s : String) : Bool :=
  match s.toList with
  | '/' :: _ => true
  | _ => false

/-- Whether a path string ends with the POSIX separator. -/
def endsWithSlash (s : String) : Bool :=
  match s.toList.getLast? with
  | some '/' => true
  | _ => false

/-- Python `os.path.join(a, b)` for POSIX paths: an absolute `b` resets; otherwise
`b` is appended, inserting `/` unless `a` is empty or already ends in one. -/
def pyJoin (a b : String) : String :=
  if startsWithSlash b then b
  else if a = "" || endsWithSlash a then a ++ b
  else a ++ "/" ++ b

/-- Python `str.split` with separator `/` over the character list: cut at every `/`, keeping
empty parts; `acc` holds the current part reversed. -/
def splitSlashAux : List Char → List Char → List String
  | [], acc => [String.mk acc.reverse]
  | c :: rest, acc =>
    if c = '/' then String.mk acc.reverse :: splitSlashAux rest []
    else splitSlashAux rest (c :: acc)

/-- The `/`-separated parts of a path. -/
def splitSlash (p : String) : List String :=
  splitSlashAux p.toList []

/-- Python `os.path.dirname(p)` for relative POSIX paths without repeated
separators — the only shape of logical path the emulator builds
(main.py line 110): everything before the last `/`, and `""` when `p` has
no separator. -/
def dirname (p : String) : String :=
  let parts := splitSlash p
  if parts.length ≤ 1 then "" else "/".intercalate parts.dropLast

/-- The physical path `os.path.join('temp_fs', self.cwd, file_name)` opened
by `head`/`tail`/`chmod` (main.py lines 125, 135, 145). -/
def physPath (cwd file_name : String) : String :=
  pyJoin (pyJoin "temp_fs" cwd) file_name

/-- Single digit of Python `int(s, 8)`: `'0'`..`'7'`. -/
def isOctDigit (c : Char) : Bool :=
  '0' ≤ c && c ≤ '7'

/-- Accumulator pass of `pyIntOctal` over the digit characters. -/
def octValAux : List Char → Nat → Option Nat
  | [], acc => some acc
  | c :: rest, acc =>
    if isOctDigit c then octValAux rest (acc * 8 + (c.toNat - '0'.toNat)) else none

/-- Value of a non-empty run of octal digits; `none` on the empty run or on
any non-octal character (Python raises `ValueError`). -/
def octVal : List Char → Option Nat
  | [] => none
  | cs => octValAux cs 0

/-- Strip an optional `0o` / `0O` base marker, as `int(s, 8)` accepts. -/
def stripOctBase : List Char → List Char
  | '0' :: 'o' :: rest => rest
  | '0' :: 'O' :: rest => rest
  | cs => cs

/-- Models the Python builtin `int(permissions, 8)` (main.py line 148) on
strings without surrounding whitespace or underscore separators (Python
additionally tolerates those; the emulator's inputs never use them):
optional sign, optional `0o` prefix, then one or more octal digits;
`none` models the `ValueError` branch. -/
def pyIntOctal (s : String) : Option Int :=
  match s.toList with
  | '-' :: rest => (octVal (stripOctBase rest)).map (fun n => -(n : Int))
  | '+' :: rest => (octVal (stripOctBase rest)).map (fun n => (n : Int))
  | cs => (octVal (stripOctBase cs)).map (fun n => (n : Int))

/-- Models `self.write_log(message)` (main.py lines 49-55): append
`{"action": message, "cwd": self.cwd}` to `self.log`.  The rewrite of the
JSON log file is external persistence, outside the core state. -/
def write_log (s : Shell) (message : String) : Shell :=
  { s with log := s.log ++ [⟨message, s.cwd⟩] }

/-- Models `self.ls()` (main.py lines 96-105). -/
def ls (s : Shell) : Shell × List String :=
  let out :=
    match dictGet s.fs s.cwd with
    | some content =>
      if content.isEmpty then ["No files or directories found."]
      else ["\n".intercalate content]
    | none =>
      ["Error: Current directory '" ++ s.cwd ++ "' not found in filesystem."]
  (write_log s ("ls command executed in " ++ s.cwd), out)

/-- Models `self.cd(directory)` (main.py lines 107-122).  `Except.error` models the
two `raise ValueError(...)` branches; note that `write_log` runs after the
assignment to `self.cwd`, so the log entry carries the new cursor. -/
def cd (s : Shell) (directory : String) : Except String (Shell × List String) :=
  if directory == ".." then
    if s.cwd != "root" then
      let s1 := { s with cwd := dirname s.cwd }
      Except.ok (write_log s1 ("Changed directory to " ++ s1.cwd), [])
    else
      Except.ok (s, ["Already in root directory."])
  else if (dictGetD s.fs s.cwd []).contains directory then
    let new_path := if s.cwd != "root" then pyJoin s.cwd directory else directory
    if (dictGet s.fs new_path).isSome then
      let s1 := { s with cwd := new_path }
      Except.ok (write_log s1 ("Changed directory to " ++ new_path), [])
    else
      Except.error ("cd: " ++ directory ++ ": Not a directory")
  else
    Except.error ("cd: " ++ directory ++ ": No such directory")

/-- Models `self.tail(file_name)` (main.py lines 124-132): Python `lines[-10:]` is
`drop (length - 10)` (the whole list when at most 10 lines). -/
def tail (dk : Disk) (s : Shell) (file_name : String) : Shell × List String :=
  let file_path := physPath s.cwd file_name
  match dk.readLines file_path with
  | some lines =>
    (write_log s ("tail command executed on " ++ file_name),
     [String.join (lines.drop (lines.length - 10))])
  | none => (s, ["tail: " ++ file_name ++ ": No such file"])

/-- Models `self.head(file_name)` (main.py lines 134-142): Python `lines[:10]`. -/
def head (dk : Disk) (s : Shell) (file_name : String) : Shell × List String :=
  let file_path := physPath s.cwd file_name
  match dk.readLines file_path with
  | some lines =>
    (write_log s ("head command executed on " ++ file_name),
     [String.join (lines.take 10)])
  | none => (s, ["head: " ++ file_name ++ ": No such file"])

/-- Models `self.chmod(permissions, file_name)` (main.py lines 144-154): existence
is checked first (`os.path.exists`, so directories qualify), then the octal
parse; its `ValueError` is caught inside the handler. -/
def chmod (dk : Disk) (s : Shell) (permissions file_name : String) : Shell × List String :=
  let file_path := physPath s.cwd file_name
  if dk.pathExists file_path then
    match pyIntOctal permissions with
    | some _ =>
      (write_log s ("chmod command executed on " ++ file_name ++
          " with permissions " ++ permissions),
       ["Permissions of " ++ file_name ++ " changed to " ++ permissions])
    | none => (s, ["chmod: invalid permissions format"])
  else
    (s, ["chmod: " ++ file_name ++ ": No such file or directory"])

/-- Models `self.exit()` (main.py lines 156-159), up to the terminating `exit()`
process call (external). -/
def exitCmd (s : Shell) : Shell × List String :=
  (write_log s "Shell Emulator exited", ["Exiting shell emulator"])

/-- Models `self.run_tests()` (main.py lines 161-163), up to the external
`unittest` runner invocation: prints the banner and does not log. -/
def run_tests (s : Shell) : Shell × List String :=
  (s, ["Running tests..."])

/-- Body of the `try:` block of `run_command` (main.py lines 59-92), after
`command.strip().split()` has produced `cmd_parts`.  An uncaught handler
exception surfaces as `Except.error`. -/
def run_command_parts (dk : Disk) (s : Shell) (cmd_parts : List String) :
    Except String (Shell × List String) :=
  match cmd_parts with
  | [] => Except.ok (s, ["Empty command"])
  | cmd :: args =>
    if cmd == "ls" then Except.ok (ls s)
    else if cmd == "cd" then
      match args with
      | d :: _ => cd s d
      | [] => Except.ok (s, ["cd: missing argument"])
    else if cmd == "tail" then
      match args with
      | f :: _ => Except.ok (tail dk s f)
      | [] => Except.ok (s, ["tail: missing argument"])
    else if cmd == "head" then
      match args with
      | f :: _ => Except.ok (head dk s f)
      | [] => Except.ok (s, ["head: missing argument"])
    else if cmd == "chmod" then
      match args with
      | p :: f :: _ => Except.ok (chmod dk s p f)
      | _ => Except.ok (s, ["chmod: missing arguments"])
    else if cmd == "exit" then Except.ok (exitCmd s)
    else if cmd == "test" then Except.ok (run_tests s)
    else Except.ok (s, ["Unknown command: " ++ cmd])

/-- The `try/except` of `run_command` (main.py lines 57-94): a handler
exception is converted to the one-line `Error executing command:` output,
leaving the session state as it was (no handler mutates before raising). -/
def runCaught (dk : Disk) (s : Shell) (cmd_parts : List String) : Shell × List String :=
  match run_command_parts dk s cmd_parts with
  | Except.ok r => r
  | Except.error e => (s, ["Error executing command: " ++ e])

/-- One token-splitting step of Python `str.split()`: split on runs of
whitespace, discarding empty tokens; `acc` holds the current token
reversed. -/
def splitWsAux : List Char → List Char → List String
  | [], [] => []
  | [], acc => [String.mk acc.reverse]
  | c :: rest, acc =>
    if c.isWhitespace then
      match acc with
      | [] => splitWsAux rest []
      | _ => String.mk acc.reverse :: splitWsAux rest []
    else splitWsAux rest (c :: acc)

/-- Python `command.strip().split()` (main.py line 59); `.split()` with no
separator already discards leading/trailing whitespace, so `strip` adds
nothing. -/
def pySplit (command : String) : List String :=
  splitWsAux command.toList []

/-- Models `self.run_command(command)` (main.py lines 57-94). -/
def run_command (dk : Disk) (s : Shell) (command : String) : Shell × List String :=
  runCaught dk s (pySplit command)

/-- One tuple `(root, dirs, files)` yielded by `os.walk('temp_fs')`
(main.py line 43), with `rel` the value `os.path.relpath(root, 'temp_fs')`
computes on line 44.  `os.walk` is the external tree reader; its contract:
on an existing directory it walks top-down, yielding the walked directory
itself first, with relpath `"."`, then each subdirectory with its
`/`-separated relative path. -/
structure WalkEntry where
  rel : String
  dirs : List String
  files : List String

/-- The key stored for a visited directory (main.py lines 44-46): the walk
root's relpath `"."` is renamed `"root"`, all others keep their relpath. -/
def relKey (rel : String) : String :=
  if rel == "." then "root" else rel

/-- Models `self.load_filesystem()` (main.py lines 36-47) after the extraction
step, as a function of the `os.walk` output: `self.fs = {}`, then for each
visited directory assign `self.fs[relative_root] = dirs + files`.
(Archive reading and `safe_extract` are the external extraction
collaborator.) -/
def load_filesystem_fs (walk : List WalkEntry) : Dict :=
  walk.foldl (fun fs w => dictInsert fs (relKey w.rel) (w.dirs ++ w.files)) []

/-- The `os.walk` output for the tree `setup_test_environment` archives
(main.py lines 219-231) once extracted under `temp_fs`:
`root/{file1.txt, file2.txt, subdir/}`, `subdir/{file3.txt}`. -/
def scenarioWalk : List WalkEntry :=
  [⟨".", ["subdir"], ["file1.txt", "file2.txt"]⟩,
   ⟨"subdir", [], ["file3.txt"]⟩]

/-- The extracted files as the zip of `setup_test_environment` lays them
out (entries are paths relative to the archived folder, so root files land
directly under `temp_fs`, not under `temp_fs/root`). -/
def scenarioDisk : Disk :=
  { files :=
      [("temp_fs/file1.txt", ["line one\n", "line two\n", "line three\n"]),
       ("temp_fs/file2.txt", ["This is file2.txt\n"]),
       ("temp_fs/subdir/file3.txt", ["This is file3.txt\n"])],
    dirs := ["temp_fs", "temp_fs/subdir"] }

/-- The session right after `load_filesystem` on the scenario archive:
cursor at `"root"` (main.py line 13), indexed mapping, empty log. -/
def scenarioShell : Shell :=
  { cwd := "root", fs := load_filesystem_fs scenarioWalk, log := [] }

/-- The scenario session after a successful `cd subdir`. -/
def subShell : Shell :=
  (runCaught scenarioDisk scenarioShell ["cd", "subdir"]).1

/-- The scenario session after `cd subdir` then `cd ..`: the cursor the
code actually produces for that chain. -/
def danglingShell : Shell :=
  (runCaught scenarioDisk subShell ["cd", ".."]).1

/-- A one-directory extracted tree used to exercise `chmod` on a directory
target: `temp_fs/root/mydir` exists as a directory and nothing is a
regular file. -/
def wDisk : Disk :=
  { files := [], dirs := ["temp_fs", "temp_fs/root", "temp_fs/root/mydir"] }

/- ------------------------------------------------------------------ -/
/- Helper lemmas shared by the claim theorems.                         -/
/- ------------------------------------------------------------------ -/

theorem write_log_log (s : Shell) (m : String) :
    (write_log s m).log = s.log ++ [⟨m, s.cwd⟩] := rfl

theorem write_log_cwd (s : Shell) (m : String) :
    (write_log s m).cwd = s.cwd := rfl

/-- Python dict assignment preserves presence of every key. -/
theorem dictGet_dictInsert_isSome (d : Dict) (k k' : String) (v : List String)
    (h : (dictGet d k').isSome = true) :
    (dictGet (dictInsert d k v) k').isSome = true := by
  induction d with
  | nil => simp [dictGet] at h
  | cons p rest ih =>
    obtain ⟨pk, pv⟩ := p
    by_cases hk : pk = k
    · subst hk
      by_cases hk' : pk = k'
      · subst hk'
        simp [dictGet, dictInsert]
      · have hb : (pk == k') = false := beq_eq_false_iff_ne.mpr hk'
        simp [dictGet, dictInsert, hb] at h ⊢
        exact h
    · have hb : (pk == k) = false := beq_eq_false_iff_ne.mpr hk
      by_cases hk' : pk = k'
      · subst hk'
        simp [dictGet, dictInsert, hb]
      · have hb' : (pk == k') = false := beq_eq_false_iff_ne.mpr hk'
        simp [dictGet, dictInsert, hb, hb'] at h ⊢
        exact ih h

/-- The `os.walk` loop of `load_filesystem` preserves presence of every
key already in the accumulated mapping. -/
theorem walk_foldl_isSome (ws : List WalkEntry) (fs : Dict) (k : String)
    (h : (dictGet fs k).isSome = true) :
    (dictGet (ws.foldl (fun fs w => dictInsert fs (relKey w.rel) (w.dirs ++ w.files)) fs)
        k).isSome = true := by
  induction ws generalizing fs with
  | nil => simpa using h
  | cons w rest ih =>
    simp only [List.foldl_cons]
    exact ih _ (dictGet_dictInsert_isSome _ _ _ _ h)

/- ------------------------------------------------------------------ -/
/- Claim theorems.                                                     -/
/- ------------------------------------------------------------------ -/

/-- C9: for every `os.walk` output of an existing extracted tree (whose
first tuple is the walked root itself, with relpath `"."`), `"root"` is a
key of the mapping `load_filesystem` builds; and the empty tree maps it to
the empty entry sequence. -/
theorem load_filesystem_root_key (ds fls : List String) (rest : List WalkEntry) :
    (dictGet (load_filesystem_fs (⟨".", ds, fls⟩ :: rest)) "root").isSome = true ∧
    load_filesystem_fs [⟨".", [], []⟩] = [("root", [])] := by
  constructor
  · unfold load_filesystem_fs
    simp only [List.foldl_cons]
    exact walk_foldl_isSome rest _ "root" rfl
  · rfl

/-- C1: the invariant fails on the code.  In the scenario session, the
chain `cd subdir` then `cd ..` consists of two successful
`changeDirectory` steps (each prints nothing and raises nothing), yet it
leaves the cursor at `""`, which is not a key of the filesystem mapping:
`os.path.dirname "subdir" = ""`, and `load_filesystem` never records a
key `""`. -/
theorem cd_chain_reaches_dangling_cursor :
    (runCaught scenarioDisk scenarioShell ["cd", "subdir"]).2 = [] ∧
    (runCaught scenarioDisk subShell ["cd", ".."]).2 = [] ∧
    danglingShell.cwd = "" ∧
    dictGet danglingShell.fs "" = none := by
  exact ⟨rfl, rfl, rfl, rfl⟩

/-- C2: `cd ..` from `"root"` is indeed an informational no-op, but from
the top-level directory `"subdir"` the code sets the cursor to
`os.path.dirname "subdir" = ""`, not to `"root"`: the claimed collapse to
`"root"` does not happen. -/
theorem cd_up_from_toplevel_not_root :
    cd scenarioShell ".." = Except.ok (scenarioShell, ["Already in root directory."]) ∧
    cd subShell ".." = Except.ok (danglingShell, []) ∧
    danglingShell.cwd = "" ∧
    danglingShell.cwd ≠ "root" := by
  refine ⟨rfl, rfl, rfl, by decide⟩

/-- C3: the scenario fails on the code.  With the cursor at `"root"`,
`head`/`chmod` address `temp_fs/root/file1.txt`, but the extraction laid
the scenario archive out at `temp_fs/file1.txt`; so `head` on the 3-line
file reports `No such file`, and both `chmod 644` and `chmod 99x` report
`No such file or directory` (existence is checked before the permission
parse).  Inside `subdir` the physical paths line up again and `head`
returns the file's lines. -/
theorem scenario_head_chmod_fail_at_root :
    (head scenarioDisk scenarioShell "file1.txt").2 = ["head: file1.txt: No such file"] ∧
    (chmod scenarioDisk scenarioShell "644" "file1.txt").2 =
      ["chmod: file1.txt: No such file or directory"] ∧
    (chmod scenarioDisk scenarioShell "99x" "file1.txt").2 =
      ["chmod: file1.txt: No such file or directory"] ∧
    physPath scenarioShell.cwd "file1.txt" = "temp_fs/root/file1.txt" ∧
    scenarioDisk.readLines "temp_fs/file1.txt" =
      some ["line one\n", "line two\n", "line three\n"] ∧
    (head scenarioDisk subShell "file3.txt").2 = ["This is file3.txt\n"] := by
  exact ⟨rfl, rfl, rfl, rfl, rfl, rfl⟩

/-- C4 counterexample: `test` is not one of the six spec verbs, yet the
interpreter does not answer with the unknown-command notice — it runs the
built-in test suite instead. -/
theorem test_verb_not_unknown :
    runCaught scenarioDisk scenarioShell ["test"] = (scenarioShell, ["Running tests..."]) ∧
    ["Running tests..."] ≠ ["Unknown command: test"] := by
  refine ⟨rfl, by decide⟩

/-- C4 amended: the command surface is the seven verbs `ls`, `cd`, `head`,
`tail`, `chmod`, `exit`, `test`; every command line whose first token is
none of them returns the unknown-command notice and changes nothing. -/
theorem unknown_verb_notice (dk : Disk) (s : Shell) (cmd : String) (args : List String)
    (h : cmd ∉ ["ls", "cd", "tail", "head", "chmod", "exit", "test"]) :
    runCaught dk s (cmd :: args) = (s, ["Unknown command: " ++ cmd]) := by
  simp only [List.mem_cons, List.mem_singleton, not_or] at h
  obtain ⟨h1, h2, h3, h4, h5, h6, h7, -⟩ := h
  have e1 : (cmd == "ls") = false := beq_eq_false_iff_ne.mpr h1
  have e2 : (cmd == "cd") = false := beq_eq_false_iff_ne.mpr h2
  have e3 : (cmd == "tail") = false := beq_eq_false_iff_ne.mpr h3
  have e4 : (cmd == "head") = false := beq_eq_false_iff_ne.mpr h4
  have e5 : (cmd == "chmod") = false := beq_eq_false_iff_ne.mpr h5
  have e6 : (cmd == "exit") = false := beq_eq_false_iff_ne.mpr h6
  have e7 : (cmd == "test") = false := beq_eq_false_iff_ne.mpr h7
  simp [runCaught, run_command_parts, e1, e2, e3, e4, e5, e6, e7]

/-- C4 witness: a verb outside the seven gets the notice. -/
theorem unknown_verb_notice_w :
    runCaught scenarioDisk scenarioShell ["pwd"] =
      (scenarioShell, ["Unknown command: pwd"]) :=
  unknown_verb_notice scenarioDisk scenarioShell "pwd" [] (by decide)

/-- C5: when `cd` to a target name fails, the failure is classified as the
claim states — `No such directory` when the name is absent from the
current directory's entries, `Not a directory` when it is listed but its
resolved path is not a mapping key — and the interpreter leaves the whole
session state (cursor included) unchanged. -/
theorem cd_failure_classification (dk : Disk) (s : Shell) (d : String)
    (hne : d ≠ "..") :
    ((dictGetD s.fs s.cwd []).contains d = false →
      runCaught dk s ["cd", d] =
        (s, ["Error executing command: cd: " ++ d ++ ": No such directory"])) ∧
    ((dictGetD s.fs s.cwd []).contains d = true →
      dictGet s.fs (if s.cwd != "root" then pyJoin s.cwd d else d) = none →
      runCaught dk s ["cd", d] =
        (s, ["Error executing command: cd: " ++ d ++ ": Not a directory"])) := by
  have hb : (d == "..") = false := beq_eq_false_iff_ne.mpr hne
  have hparts : run_command_parts dk s ["cd", d] = cd s d := rfl
  constructor
  · intro hmem
    simp at hmem
    simp only [runCaught, hparts, cd, hb, Bool.false_eq_true, if_false]
    simp [hmem]
    rw [← String.append_assoc, ← String.append_assoc]
    rfl
  · intro hmem hkey
    simp at hmem hkey
    simp only [runCaught, hparts, cd, hb, Bool.false_eq_true, if_false]
    simp [hmem, hkey]
    rw [← String.append_assoc, ← String.append_assoc]
    rfl

/-- C5 witness: in the scenario session, `cd nope` (absent name) and
`cd file1.txt` (listed file) fail with the matching messages and leave the
session unchanged. -/
theorem cd_failure_classification_w :
    runCaught scenarioDisk scenarioShell ["cd", "nope"] =
      (scenarioShell, ["Error executing command: cd: nope: No such directory"]) ∧
    runCaught scenarioDisk scenarioShell ["cd", "file1.txt"] =
      (scenarioShell, ["Error executing command: cd: file1.txt: Not a directory"]) :=
  ⟨(cd_failure_classification scenarioDisk scenarioShell "nope" (by decide)).1 rfl,
   (cd_failure_classification scenarioDisk scenarioShell "file1.txt" (by decide)).2 rfl rfl⟩

/-- C6: on the file the code opens, `head` prints its first 10 lines and
`tail` its last 10, and when the file has at most 10 lines those slices
are the whole file in original order. -/
theorem head_tail_line_slices (dk : Disk) (s : Shell) (f : String) (lns : List String)
    (h : dk.readLines (physPath s.cwd f) = some lns) :
    (head dk s f).2 = [String.join (lns.take 10)] ∧
    (tail dk s f).2 = [String.join (lns.drop (lns.length - 10))] ∧
    (lns.length ≤ 10 → lns.take 10 = lns ∧ lns.drop (lns.length - 10) = lns) := by
  refine ⟨?_, ?_, ?_⟩
  · simp [head, h]
  · simp [tail, h]
  · intro hlen
    refine ⟨List.take_of_length_le hlen, ?_⟩
    have hz : lns.length - 10 = 0 := Nat.sub_eq_zero_of_le hlen
    simp [hz]

/-- C6 witness: `head`/`tail` on the one-line `file3.txt` inside `subdir`
return that line. -/
theorem head_tail_line_slices_w :
    (head scenarioDisk subShell "file3.txt").2 =
      [String.join (["This is file3.txt\n"].take 10)] ∧
    (tail scenarioDisk subShell "file3.txt").2 =
      [String.join
        (["This is file3.txt\n"].drop (["This is file3.txt\n"].length - 10))] ∧
    (["This is file3.txt\n"].length ≤ 10 →
      ["This is file3.txt\n"].take 10 = ["This is file3.txt\n"] ∧
      ["This is file3.txt\n"].drop (["This is file3.txt\n"].length - 10) =
        ["This is file3.txt\n"]) :=
  head_tail_line_slices scenarioDisk subShell "file3.txt" ["This is file3.txt\n"] rfl

/-- C8: every exception a handler raises during command execution is
caught at the interpreter boundary and becomes the one-line
`Error executing command:` output, with the session state exactly as it
was before the command — no failure propagates out of `run_command`. -/
theorem handler_errors_caught (dk : Disk) (s : Shell) (parts : List String) (e : String)
    (h : run_command_parts dk s parts = Except.error e) :
    runCaught dk s parts = (s, ["Error executing command: " ++ e]) := by
  simp [runCaught, h]

/-- C8 witness: the `ValueError` of `cd nowhere` surfaces as the one-line
error output and the session survives unchanged. -/
theorem handler_errors_caught_w :
    runCaught scenarioDisk scenarioShell ["cd", "nowhere"] =
      (scenarioShell, ["Error executing command: cd: nowhere: No such directory"]) :=
  handler_errors_caught scenarioDisk scenarioShell ["cd", "nowhere"]
    "cd: nowhere: No such directory" rfl

/-- C10: `chmod` only checks bare existence (`os.path.exists`), so it
succeeds on a directory target with a valid octal mode, while `head` and
`tail` require a regular file (`os.path.isfile`) and answer `No such file`
on that same directory target. -/
theorem chmod_dir_vs_head_tail (dk : Disk) (s : Shell) (name perms : String) (n : Int)
    (hdir : dk.dirs.contains (physPath s.cwd name) = true)
    (hnofile : dk.readLines (physPath s.cwd name) = none)
    (hperm : pyIntOctal perms = some n) :
    chmod dk s perms name =
      (write_log s ("chmod command executed on " ++ name ++
          " with permissions " ++ perms),
       ["Permissions of " ++ name ++ " changed to " ++ perms]) ∧
    head dk s name = (s, ["head: " ++ name ++ ": No such file"]) ∧
    tail dk s name = (s, ["tail: " ++ name ++ ": No such file"]) := by
  refine ⟨?_, ?_, ?_⟩
  · have hex : dk.pathExists (physPath s.cwd name) = true := by
      unfold Disk.pathExists Disk.isFile
      rw [hnofile, hdir]
      rfl
    simp [chmod, hex, hperm]
  · simp [head, hnofile]
  · simp [tail, hnofile]

/-- C10 witness: on a disk where `temp_fs/root/mydir` is a directory,
`chmod 755 mydir` succeeds while `head`/`tail` on `mydir` report
`No such file`. -/
theorem chmod_dir_vs_head_tail_w :
    chmod wDisk scenarioShell "755" "mydir" =
      (write_log scenarioShell ("chmod command executed on " ++ "mydir" ++
          " with permissions " ++ "755"),
       ["Permissions of " ++ "mydir" ++ " changed to " ++ "755"]) ∧
    head wDisk scenarioShell "mydir" =
      (scenarioShell, ["head: " ++ "mydir" ++ ": No such file"]) ∧
    tail wDisk scenarioShell "mydir" =
      (scenarioShell, ["tail: " ++ "mydir" ++ ": No such file"]) :=
  chmod_dir_vs_head_tail wDisk scenarioShell "mydir" "755" 493 rfl rfl rfl

/-- A successful `cd` either left the state untouched (already-at-root
no-op) or appended exactly one log entry recording the post-action
cursor. -/
theorem cd_ok_log (s : Shell) (d : String) (r : Shell × List String)
    (h : cd s d = Except.ok r) :
    r.1.log = s.log ∨ ∃ m, r.1.log = s.log ++ [⟨m, r.1.cwd⟩] := by
  unfold cd at h
  by_cases h1 : (d == "..") = true
  · simp only [h1, if_true] at h
    by_cases h2 : (s.cwd != "root") = true
    · simp only [h2, if_true] at h
      cases h
      right; exact ⟨_, rfl⟩
    · simp only [Bool.not_eq_true] at h2
      simp only [h2, Bool.false_eq_true, if_false] at h
      cases h
      left; rfl
  · simp only [Bool.not_eq_true] at h1
    simp only [h1, Bool.false_eq_true, if_false] at h
    by_cases h2 : (dictGetD s.fs s.cwd []).contains d = true
    · simp only [h2, if_true] at h
      by_cases h3 :
          (dictGet s.fs (if (s.cwd != "root") = true then pyJoin s.cwd d else d)).isSome
            = true
      · simp only [h3, if_true] at h
        cases h
        right; exact ⟨_, rfl⟩
      · simp only [Bool.not_eq_true] at h3
        simp only [h3, Bool.false_eq_true, if_false] at h
        cases h
    · simp only [Bool.not_eq_true] at h2
      simp only [h2, Bool.false_eq_true, if_false] at h
      cases h

/-- A `cd` that succeeds silently (printing nothing, i.e. actually
navigating rather than reporting the root no-op) appended exactly the
`Changed directory to` entry carrying the new cursor. -/
theorem cd_ok_silent_log (s : Shell) (d : String) (s1 : Shell)
    (h : cd s d = Except.ok (s1, [])) :
    s1.log = s.log ++ [⟨"Changed directory to " ++ s1.cwd, s1.cwd⟩] := by
  unfold cd at h
  by_cases h1 : (d == "..") = true
  · simp only [h1, if_true] at h
    by_cases h2 : (s.cwd != "root") = true
    · simp only [h2, if_true] at h
      cases h
      rfl
    · simp only [Bool.not_eq_true] at h2
      simp only [h2, Bool.false_eq_true, if_false] at h
      injection h with h0
      injection h0 with ha hb
      cases hb
  · simp only [Bool.not_eq_true] at h1
    simp only [h1, Bool.false_eq_true, if_false] at h
    by_cases h2 : (dictGetD s.fs s.cwd []).contains d = true
    · simp only [h2, if_true] at h
      by_cases h3 :
          (dictGet s.fs (if (s.cwd != "root") = true then pyJoin s.cwd d else d)).isSome
            = true
      · simp only [h3, if_true] at h
        cases h
        rfl
      · simp only [Bool.not_eq_true] at h3
        simp only [h3, Bool.false_eq_true, if_false] at h
        cases h
    · simp only [Bool.not_eq_true] at h2
      simp only [h2, Bool.false_eq_true, if_false] at h
      cases h

/-- Every executed command appends at most one log entry, and an appended
entry records the post-action cursor. -/
theorem runCaught_appends_at_most_one (dk : Disk) (s : Shell) (parts : List String) :
    (runCaught dk s parts).1.log = s.log ∨
    ∃ m, (runCaught dk s parts).1.log =
      s.log ++ [⟨m, (runCaught dk s parts).1.cwd⟩] := by
  rcases parts with _ | ⟨cmd, args⟩
  · left; rfl
  · unfold runCaught run_command_parts
    by_cases c1 : (cmd == "ls") = true
    · simp only [c1, if_true]
      right; exact ⟨_, rfl⟩
    simp only [Bool.not_eq_true] at c1
    simp only [c1, Bool.false_eq_true, if_false]
    by_cases c2 : (cmd == "cd") = true
    · simp only [c2, if_true]
      rcases args with _ | ⟨d, rest⟩
      · left; rfl
      · cases hcd : cd s d with
        | ok r =>
          simp only [hcd]
          exact cd_ok_log s d r hcd
        | error e =>
          simp only [hcd]
          left; trivial
    simp only [Bool.not_eq_true] at c2
    simp only [c2, Bool.false_eq_true, if_false]
    by_cases c3 : (cmd == "tail") = true
    · simp only [c3, if_true]
      rcases args with _ | ⟨f, rest⟩
      · left; rfl
      · unfold tail
        cases hrl : Disk.readLines dk (physPath s.cwd f) with
        | some lns =>
          simp only [hrl]
          right; exact ⟨_, rfl⟩
        | none =>
          simp only [hrl]
          left; trivial
    simp only [Bool.not_eq_true] at c3
    simp only [c3, Bool.false_eq_true, if_false]
    by_cases c4 : (cmd == "head") = true
    · simp only [c4, if_true]
      rcases args with _ | ⟨f, rest⟩
      · left; rfl
      · unfold head
        cases hrl : Disk.readLines dk (physPath s.cwd f) with
        | some lns =>
          simp only [hrl]
          right; exact ⟨_, rfl⟩
        | none =>
          simp only [hrl]
          left; trivial
    simp only [Bool.not_eq_true] at c4
    simp only [c4, Bool.false_eq_true, if_false]
    by_cases c5 : (cmd == "chmod") = true
    · simp only [c5, if_true]
      rcases args with _ | ⟨p, _ | ⟨f, rest⟩⟩
      · left; rfl
      · left; rfl
      · unfold chmod
        by_cases hex : Disk.pathExists dk (physPath s.cwd f) = true
        · simp only [hex, if_true]
          cases hoct : pyIntOctal p with
          | some n =>
            simp only [hoct]
            right; exact ⟨_, rfl⟩
          | none =>
            simp only [hoct]
            left; trivial
        · simp only [Bool.not_eq_true] at hex
          simp only [hex, Bool.false_eq_true, if_false]
          left; trivial
    simp only [Bool.not_eq_true] at c5
    simp only [c5, Bool.false_eq_true, if_false]
    by_cases c6 : (cmd == "exit") = true
    · simp only [c6, if_true]
      right; exact ⟨_, rfl⟩
    simp only [Bool.not_eq_true] at c6
    simp only [c6, Bool.false_eq_true, if_false]
    by_cases c7 : (cmd == "test") = true
    · simp only [c7, if_true]
      left; trivial
    simp only [Bool.not_eq_true] at c7
    simp only [c7, Bool.false_eq_true, if_false]
    left; trivial

/-- C7 amended: each executed command appends at most one `LogEntry`, and
an appended entry carries the action description and the post-action
current directory; `head`/`tail` append only on success (file found, with
the entry recording the unchanged cursor); `cd` at `"root"` treats `..` as
a logging-free no-op, a failed `cd` leaves the session untouched, and a
`cd` that takes a successful navigation branch appends exactly the
`Changed directory to` entry for the post-action cursor.  (Taking a
successful navigation branch need not change the cursor — see the
counterexample.) -/
theorem log_discipline (dk : Disk) (s : Shell) :
    (∀ parts, (runCaught dk s parts).1.log = s.log ∨
      ∃ m, (runCaught dk s parts).1.log =
        s.log ++ [⟨m, (runCaught dk s parts).1.cwd⟩]) ∧
    (∀ f, dk.readLines (physPath s.cwd f) = none →
      runCaught dk s ["head", f] = (s, ["head: " ++ f ++ ": No such file"]) ∧
      runCaught dk s ["tail", f] = (s, ["tail: " ++ f ++ ": No such file"])) ∧
    (∀ f lns, dk.readLines (physPath s.cwd f) = some lns →
      (runCaught dk s ["head", f]).1.log =
        s.log ++ [⟨"head command executed on " ++ f, s.cwd⟩] ∧
      (runCaught dk s ["tail", f]).1.log =
        s.log ++ [⟨"tail command executed on " ++ f, s.cwd⟩]) ∧
    (s.cwd = "root" →
      runCaught dk s ["cd", ".."] = (s, ["Already in root directory."])) ∧
    (∀ d e, cd s d = Except.error e →
      runCaught dk s ["cd", d] = (s, ["Error executing command: " ++ e])) ∧
    (∀ d s1, cd s d = Except.ok (s1, []) →
      s1.log = s.log ++ [⟨"Changed directory to " ++ s1.cwd, s1.cwd⟩]) := by
  refine ⟨runCaught_appends_at_most_one dk s, ?_, ?_, ?_, ?_, ?_⟩
  · intro f hnone
    have hh : runCaught dk s ["head", f] = head dk s f := rfl
    have ht : runCaught dk s ["tail", f] = tail dk s f := rfl
    rw [hh, ht]
    simp [head, tail, hnone]
  · intro f lns hsome
    have hh : runCaught dk s ["head", f] = head dk s f := rfl
    have ht : runCaught dk s ["tail", f] = tail dk s f := rfl
    rw [hh, ht]
    simp [head, tail, hsome, write_log]
  · intro hroot
    have hc : runCaught dk s ["cd", ".."] =
        match cd s ".." with
        | Except.ok r => r
        | Except.error e => (s, ["Error executing command: " ++ e]) := rfl
    have hcd : cd s ".." = Except.ok (s, ["Already in root directory."]) := by
      unfold cd
      have hne : (s.cwd != "root") = false := by
        rw [hroot]
        rfl
      simp [hne]
    rw [hc, hcd]
  · intro d e h
    have hc : runCaught dk s ["cd", d] =
        match cd s d with
        | Except.ok r => r
        | Except.error e => (s, ["Error executing command: " ++ e]) := rfl
    rw [hc, h]
  · intro d s1 h
    exact cd_ok_silent_log s d s1 h

/-- C7 witness: instances of the amended discipline in the scenario
session — `ls` appends one entry; a failed `head` appends none and leaves
the session intact; a successful `head` in `subdir` appends one entry with
the cursor; `cd ..` at root logs nothing; `cd subdir` appends exactly the
navigation entry. -/
theorem log_discipline_w :
    ((runCaught scenarioDisk scenarioShell ["ls"]).1.log = scenarioShell.log ∨
      ∃ m, (runCaught scenarioDisk scenarioShell ["ls"]).1.log =
        scenarioShell.log ++ [⟨m, (runCaught scenarioDisk scenarioShell ["ls"]).1.cwd⟩]) ∧
    runCaught scenarioDisk scenarioShell ["head", "file1.txt"] =
      (scenarioShell, ["head: " ++ "file1.txt" ++ ": No such file"]) ∧
    (runCaught scenarioDisk subShell ["head", "file3.txt"]).1.log =
      subShell.log ++ [⟨"head command executed on " ++ "file3.txt", subShell.cwd⟩] ∧
    runCaught scenarioDisk scenarioShell ["cd", ".."] =
      (scenarioShell, ["Already in root directory."]) ∧
    subShell.log = scenarioShell.log ++
      [⟨"Changed directory to " ++ subShell.cwd, subShell.cwd⟩] :=
  ⟨(log_discipline scenarioDisk scenarioShell).1 ["ls"],
   ((log_discipline scenarioDisk scenarioShell).2.1 "file1.txt" rfl).1,
   ((log_discipline scenarioDisk subShell).2.2.1 "file3.txt"
      ["This is file3.txt\n"] rfl).1,
   (log_discipline scenarioDisk scenarioShell).2.2.2.1 rfl,
   (log_discipline scenarioDisk scenarioShell).2.2.2.2.2 "subdir" subShell rfl⟩

/-- C7 counterexample: in the reachable degenerate session whose cursor is
`""` (after `cd subdir`, `cd ..`), another `cd ..` appends a log entry
although the cursor does not change — refuting "cd appends an entry only
on an actual cursor change" as originally claimed. -/
theorem cd_up_logs_without_cursor_change :
    (runCaught scenarioDisk danglingShell ["cd", ".."]).1.cwd = danglingShell.cwd ∧
    (runCaught scenarioDisk danglingShell ["cd", ".."]).1.log =
      danglingShell.log ++ [⟨"Changed directory to ", ""⟩] ∧
    danglingShell.log ≠ danglingShell.log ++ [⟨"Changed directory to ", ""⟩] := by
  refine ⟨rfl, rfl, by decide⟩
